import Mathlib

/-!
Shallow embedding of the GB28181 command/session layer
(`src/session/src/gb/handler/cmd.rs`): the INVITE negotiation loop
(`invite_stream`), the bounded-wait in-dialog commands (`play_speed`,
`play_seek`, `play_bye`) and the lazy-scheduled queries
(`lazy_query_device_info`, `lazy_query_device_catalog`,
`lazy_subscribe_device_catalog`), together with the session-description
(rtpmap) parsing they perform.

External collaborators (the rsip message types, the sdp_types parser, the
request builder and the transport) are modelled at their interface
boundary: a delivered response carries its status code, the parse result
of its body and the optional dialog tags; the channel of deliveries is a
finite list whose end models channel closure, and an element `none`
models the absence signal `(None, _)`.
-/

namespace Gb

/-- Whitespace as matched by the regex `\s` and by `str::trim` on the
ASCII range (space, tab, line feed, vertical tab, form feed, carriage
return); non-ASCII Unicode whitespace is outside the modelled inputs. -/
def isWs (c : Char) : Bool :=
  c = ' ' || c = '\t' || c = '\n' || c = '\r' || c = Char.ofNat 11 || c = Char.ofNat 12

/-- Rust `str::trim`: strip leading and trailing whitespace. -/
def trimChars (l : List Char) : List Char :=
  ((l.dropWhile isWs).reverse.dropWhile isWs).reverse

/-- Worker for `collapseWs`; the flag records whether the previous
character was part of a whitespace run already replaced by a space. -/
def collapseAux : Bool → List Char → List Char
  | _, [] => []
  | b, c :: rest =>
    if isWs c then
      if b then collapseAux true rest else ' ' :: collapseAux true rest
    else c :: collapseAux false rest

/-- The regex replacement `Regex::new(r"\s+").replace_all(s, " ")`: every maximal run of
whitespace becomes a single space. -/
def collapseWs (l : List Char) : List Char :=
  collapseAux false l

/-- Rust `str::split_once(" ")`: split at the first space, which is consumed. -/
def splitOnceSpace : List Char → Option (List Char × List Char)
  | [] => none
  | c :: rest =>
    if c = ' ' then some ([], rest)
    else (splitOnceSpace rest).map (fun p => (c :: p.1, p.2))

/-- Rust `str::parse::<u8>()`: an optional leading `+`, then one or more
decimal digits, value at most 255; anything else is a parse error. -/
def parseU8 (l : List Char) : Option Nat :=
  let l' := match l with
    | '+' :: rest => rest
    | _ => l
  if l' ≠ [] ∧ l'.all Char.isDigit then
    let n := l'.foldl (fun acc c => acc * 10 + (c.toNat - 48)) 0
    if n ≤ 255 then some n else none
  else none

/-- The closed error type behind `GlobalResult`: `new_biz_error` carries a
numeric business code and a message; other propagated failures
(`hand_log` on a parse error, builder validation errors) are system
errors carrying a message. -/
inductive GErr where
  | biz (code : Nat) (msg : String)
  | sys (msg : String)
  deriving DecidableEq

/-- One `a=`-attribute of a media section (`sdp_types::Attribute`):
the attribute name (the source field `attribute`, a Lean keyword) and an
optional value. -/
structure Attr where
  attrName : String
  value : Option String
  deriving DecidableEq

/-- One media section of a session description (`sdp_types::Media`),
restricted to the field `invite_stream` reads. -/
structure Media where
  attributes : List Attr
  deriving DecidableEq

/-- A parsed session description (`sdp_types::Session`), restricted to
the field `invite_stream` reads. -/
structure Session where
  medias : List Media
  deriving DecidableEq

/-- An rsip status code: the numeric code and the reason phrase. -/
structure StatusCode where
  code : Nat
  reason : String
  deriving DecidableEq

/-- rsip renders a status code on the status line as the numeric code,
a space, and the reason phrase (the status text `invite_stream` puts in
the rejection message). -/
def StatusCode.render (sc : StatusCode) : String :=
  toString sc.code ++ " " ++ sc.reason

/-- A delivered SIP response at the interface boundary: its status code,
the result of parsing its body with the external sdp parser (`none`
models an unparseable body), and the optional From/To dialog tags. -/
structure Response where
  statusCode : StatusCode
  body : Option Session
  fromTag : Option String
  toTag : Option String
  deriving DecidableEq

/-- Overwrite-insert into the payload-type map
(`HashMap::<u8, String>::insert`): a duplicate numeric key is
overwritten; iteration order of the Rust map is unspecified, so the
model keeps a canonical unique-key association list. -/
def mapInsert (l : List (Nat × String)) (k : Nat) (v : String) : List (Nat × String) :=
  l.filter (fun p => p.1 != k) ++ [(k, v)]

/-- Lookup as `HashMap::get`: the value stored at a key. -/
def mapLookup (l : List (Nat × String)) (k : Nat) : Option String :=
  (l.find? (fun p => p.1 == k)).map Prod.snd

/-- Processing of one rtpmap attribute value inside `invite_stream`:
trim, collapse whitespace runs to single spaces, split at the first
space into payload-type text and codec descriptor; a missing space skips
the attribute, an unparsable payload type is a fatal error, and the
codec name is the descriptor up to (not including) the first `/`,
upper-cased. -/
def rtpmapParse (info : String) : Except GErr (Option (Nat × String)) :=
  match splitOnceSpace (collapseWs (trimChars info.data)) with
  | none => .ok none
  | some (key, val) =>
    match parseU8 key with
    | none => .error (.sys "invalid digit found in string")
    | some tp =>
      .ok (some (tp, String.mk ((val.takeWhile (fun c => c ≠ '/')).map Char.toUpper)))

/-- The inner `for attr in media.attributes` loop of `invite_stream`:
only attributes named `rtpmap` with a present value contribute; a
payload-type parse error propagates out of the whole function. -/
def processAttrs : List (Nat × String) → List Attr → Except GErr (List (Nat × String))
  | m, [] => .ok m
  | m, attr :: rest =>
    if attr.attrName = "rtpmap" then
      match attr.value with
      | some info =>
        match rtpmapParse info with
        | .error e => .error e
        | .ok none => processAttrs m rest
        | .ok (some (tp, codec)) => processAttrs (mapInsert m tp codec) rest
      | none => processAttrs m rest
    else processAttrs m rest

/-- The outer `for media in session.medias` loop of `invite_stream`. -/
def processMedias : List (Nat × String) → List Media → Except GErr (List (Nat × String))
  | m, [] => .ok m
  | m, media :: rest =>
    match processAttrs m media.attributes with
    | .error e => .error e
    | .ok m' => processMedias m' rest

/-- The payload-type → codec-name mapping `invite_stream` builds from a
parsed 200-response body. -/
def buildMediaMap (s : Session) : Except GErr (List (Nat × String)) :=
  processMedias [] s.medias

/-- Modelled from the spec: `ResponseBuilder::get_tag_by_header_from`
(in `builder.rs`, not under `src/`) reads the initiator tag from the
response's From header and fails with a validation error when it is
absent. -/
def get_tag_by_header_from (r : Response) : Except GErr String :=
  match r.fromTag with
  | some t => .ok t
  | none => .error (.sys "missing from tag")

/-- Modelled from the spec: `ResponseBuilder::get_tag_by_header_to`
(in `builder.rs`, not under `src/`) reads the responder tag from the
response's To header and fails with a validation error when it is
absent. -/
def get_tag_by_header_to (r : Response) : Except GErr String :=
  match r.toTag with
  | some t => .ok t
  | none => .error (.sys "missing to tag")

deriving instance DecidableEq for Except

/-- Outcome of `invite_stream`: a normal return with a `GlobalResult`,
or a panic (the `.unwrap()` on the body parse). -/
inductive InviteOutcome where
  | ret (r : Except GErr (Response × List (Nat × String) × String × String))
  | panicked
  deriving DecidableEq

/-- The loop of `CmdStream::invite_stream` after the send: consume the channel of
deliveries (`while let Some((Some(res), _)) = rx.recv().await`); a code
≥ 300 deregisters and rejects with the status text; a code 200 parses
the body (panicking when unparseable), builds the codec map, extracts
both tags, deregisters and succeeds; any other code continues the loop;
an absence signal or channel closure deregisters and fails with the
timeout classification. The boolean records whether
`EventSession::remove_event` was invoked before returning. -/
def invite_stream : List (Option Response) → InviteOutcome × Bool
  | [] => (.ret (.error (.biz 1000 "摄像机响应超时")), true)
  | none :: _ => (.ret (.error (.biz 1000 "摄像机响应超时")), true)
  | some res :: rest =>
    if 300 ≤ res.statusCode.code then
      (.ret (.error (.biz 3000 res.statusCode.render)), true)
    else if res.statusCode.code = 200 then
      match res.body with
      | none => (.panicked, false)
      | some session =>
        match buildMediaMap session with
        | .error e => (.ret (.error e), false)
        | .ok mediaMap =>
          match get_tag_by_header_from res with
          | .error e => (.ret (.error e), false)
          | .ok from_tag =>
            match get_tag_by_header_to res with
            | .error e => (.ret (.error e), false)
            | .ok to_tag => (.ret (.ok (res, mediaMap, from_tag, to_tag)), true)
    else invite_stream rest

/-- The wait of `CmdStream::play_speed` after the send: a single
`if let Some((Some(res), _)) = rx.recv().await`; only a first delivery
with status code exactly 200 succeeds, everything else deregisters and
fails with business code 1000. The boolean records whether
`EventSession::remove_event` was invoked before returning. -/
def play_speed : List (Option Response) → Except GErr Unit × Bool
  | some res :: _ =>
    if res.statusCode.code = 200 then (.ok (), true)
    else (.error (.biz 1000 "speed倍速未响应或超时"), true)
  | _ => (.error (.biz 1000 "speed倍速未响应或超时"), true)

/-- The wait of `CmdStream::play_seek` after the send: same single-delivery wait as
`play_speed`, with its own business error message. -/
def play_seek : List (Option Response) → Except GErr Unit × Bool
  | some res :: _ =>
    if res.statusCode.code = 200 then (.ok (), true)
    else (.error (.biz 1000 "seek拖动未响应或超时"), true)
  | _ => (.error (.biz 1000 "seek拖动未响应或超时"), true)

/-- The wait of `CmdStream::play_bye` after the send: same single-delivery wait as
`play_speed`, with its own business error message. -/
def play_bye : List (Option Response) → Except GErr Unit × Bool
  | some res :: _ =>
    if res.statusCode.code = 200 then (.ok (), true)
    else (.error (.biz 1000 "关闭摄像机直播未响应或超时"), true)
  | _ => (.error (.biz 1000 "关闭摄像机直播未响应或超时"), true)

/-- A deferred action registered through `EventSession::listen_event`:
which query it carries and the fire time (in seconds, the unit of
`Duration::from_secs`). -/
structure DeferredTask where
  cmd : String
  fireAt : Nat
  deriving DecidableEq

/-- In `CmdQuery::lazy_query_device_info`: the built request is scheduled
at `Instant::now() + Duration::from_secs(2)`. `now` is the registration
time in seconds. -/
def lazy_query_device_info (now : Nat) : DeferredTask :=
  { cmd := "query_device_info", fireAt := now + 2 }

/-- In `CmdQuery::lazy_query_device_catalog`: scheduled at `now + 2` seconds. -/
def lazy_query_device_catalog (now : Nat) : DeferredTask :=
  { cmd := "query_device_catalog", fireAt := now + 2 }

/-- In `CmdQuery::lazy_subscribe_device_catalog`: scheduled at `now + 2` seconds. -/
def lazy_subscribe_device_catalog (now : Nat) : DeferredTask :=
  { cmd := "subscribe_device_catalog", fireAt := now + 2 }

/-- Modelled from the spec: the timer mechanism behind
`EventSession::listen_event` (in `event.rs`, not under `src/`) invokes a
deferred action no earlier than its fire time, so the action may fire at
time `t` only when `fireAt ≤ t`. -/
def DeferredTask.mayFireAt (d : DeferredTask) (t : Nat) : Bool :=
  d.fireAt ≤ t

/-- A provisional 183 Session Progress response. -/
def resp183 : Response :=
  { statusCode := { code := 183, reason := "Session Progress" },
    body := none, fromTag := none, toTag := none }

/-- A terminal 486 Busy Here response. -/
def resp486 : Response :=
  { statusCode := { code := 486, reason := "Busy Here" },
    body := none, fromTag := none, toTag := none }

/-- A well-formed session description with two rtpmap attributes. -/
def goodSession : Session :=
  { medias := [{ attributes := [{ attrName := "rtpmap", value := some "96 PS/90000" },
                                { attrName := "rtpmap", value := some "97 H264/90000" }] }] }

/-- A 200 OK response with a parseable body and both dialog tags. -/
def resp200 : Response :=
  { statusCode := { code := 200, reason := "OK" },
    body := some goodSession, fromTag := some "fromtag1", toTag := some "totag1" }

/-- A session description whose rtpmap payload-type field is not numeric. -/
def badPayloadSession : Session :=
  { medias := [{ attributes := [{ attrName := "rtpmap", value := some "abc PS/90000" }] }] }

/-- A 200 OK response carrying `badPayloadSession`. -/
def respBadPayload : Response :=
  { statusCode := { code := 200, reason := "OK" },
    body := some badPayloadSession, fromTag := some "fromtag1", toTag := some "totag1" }

/-- A 200 OK response whose body the sdp parser cannot parse. -/
def respNoBody : Response :=
  { statusCode := { code := 200, reason := "OK" },
    body := none, fromTag := some "fromtag1", toTag := some "totag1" }

/-- A 200 OK response with a parseable body but no From tag. -/
def respNoFrom : Response :=
  { statusCode := { code := 200, reason := "OK" },
    body := some goodSession, fromTag := none, toTag := some "totag1" }

theorem rtpmapParse_error_sys (info : String) (e : GErr)
    (h : rtpmapParse info = .error e) : e = .sys "invalid digit found in string" := by
  unfold rtpmapParse at h
  split at h
  · cases h
  · split at h
    · cases h
      rfl
    · cases h

theorem processAttrs_error_sys : ∀ (attrs : List Attr) (m : List (Nat × String)) (e : GErr),
    processAttrs m attrs = .error e → e = .sys "invalid digit found in string" := by
  intro attrs
  induction attrs with
  | nil => intro m e h; cases h
  | cons a rest ih =>
    intro m e h
    unfold processAttrs at h
    split at h
    · split at h
      · split at h
        · cases h
          exact rtpmapParse_error_sys _ _ (by assumption)
        · exact ih _ e h
        · exact ih _ e h
      · exact ih _ e h
    · exact ih _ e h

theorem processMedias_error_sys : ∀ (medias : List Media) (m : List (Nat × String)) (e : GErr),
    processMedias m medias = .error e → e = .sys "invalid digit found in string" := by
  intro medias
  induction medias with
  | nil => intro m e h; cases h
  | cons md rest ih =>
    intro m e h
    unfold processMedias at h
    split at h
    · cases h
      exact processAttrs_error_sys md.attributes m _ (by assumption)
    · exact ih _ e h

theorem buildMediaMap_error_sys (s : Session) (e : GErr)
    (h : buildMediaMap s = .error e) : e = .sys "invalid digit found in string" :=
  processMedias_error_sys s.medias [] e h

theorem keys_nodup_mapInsert (l : List (Nat × String)) (k : Nat) (v : String)
    (h : (l.map Prod.fst).Nodup) : ((mapInsert l k v).map Prod.fst).Nodup := by
  unfold mapInsert
  rw [List.map_append]
  refine List.Nodup.append ?_ ?_ ?_
  · exact List.Nodup.sublist (List.Sublist.map Prod.fst (List.filter_sublist l)) h
  · simp
  · intro a ha hb
    simp only [List.map_cons, List.map_nil, List.mem_singleton] at hb
    simp only [List.mem_map, List.mem_filter] at ha
    obtain ⟨p, ⟨hpl, hpk⟩, rfl⟩ := ha
    rw [hb] at hpk
    simp at hpk

theorem processAttrs_keys_nodup : ∀ (attrs : List Attr) (m m' : List (Nat × String)),
    processAttrs m attrs = .ok m' → (m.map Prod.fst).Nodup → (m'.map Prod.fst).Nodup := by
  intro attrs
  induction attrs with
  | nil => intro m m' h hm; cases h; exact hm
  | cons a rest ih =>
    intro m m' h hm
    unfold processAttrs at h
    split at h
    · split at h
      · split at h
        · cases h
        · exact ih _ m' h hm
        · exact ih _ m' h (keys_nodup_mapInsert m _ _ hm)
      · exact ih _ m' h hm
    · exact ih _ m' h hm

theorem processMedias_keys_nodup : ∀ (medias : List Media) (m m' : List (Nat × String)),
    processMedias m medias = .ok m' → (m.map Prod.fst).Nodup → (m'.map Prod.fst).Nodup := by
  intro medias
  induction medias with
  | nil => intro m m' h hm; cases h; exact hm
  | cons md rest ih =>
    intro m m' h hm
    unfold processMedias at h
    split at h
    · cases h
    · exact ih _ m' h (processAttrs_keys_nodup md.attributes m _ (by assumption) hm)

theorem mapLookup_mapInsert (l : List (Nat × String)) (k : Nat) (v : String) :
    mapLookup (mapInsert l k v) k = some v := by
  unfold mapLookup mapInsert
  rw [List.find?_append]
  have hnone : (l.filter (fun p => p.1 != k)).find? (fun p => p.1 == k) = none := by
    rw [List.find?_eq_none]
    intro p hp
    simp only [List.mem_filter] at hp
    simpa using hp.2
  rw [hnone]
  simp

theorem invite_stream_skip (p : Response) (tail : List (Option Response))
    (hlt : p.statusCode.code < 300) (hne : p.statusCode.code ≠ 200) :
    invite_stream (some p :: tail) = invite_stream tail := by
  rw [invite_stream.eq_def]
  dsimp only
  rw [if_neg (by omega : ¬ 300 ≤ p.statusCode.code), if_neg hne]

/-- C1: a response with status code below 300 and different from 200 does
not terminate the INVITE wait: `invite_stream` continues consuming the
channel, and after any run of such provisional responses the first
response with code exactly 200 (with a parseable body, a well-formed
codec map and both dialog tags) produces exactly one Negotiated Session
Descriptor, derived from that 200 response. -/
theorem invite_stream_provisional_then_ok
    (provs : List Response) (res : Response) (rest : List (Option Response))
    (hprov : ∀ p ∈ provs, p.statusCode.code < 300 ∧ p.statusCode.code ≠ 200)
    (h200 : res.statusCode.code = 200)
    (session : Session) (hbody : res.body = some session)
    (m : List (Nat × String)) (hm : buildMediaMap session = .ok m)
    (ftag : String) (hft : res.fromTag = some ftag)
    (ttag : String) (htt : res.toTag = some ttag) :
    (∀ (p : Response) (tail : List (Option Response)),
        p.statusCode.code < 300 → p.statusCode.code ≠ 200 →
        invite_stream (some p :: tail) = invite_stream tail)
    ∧ invite_stream (provs.map some ++ some res :: rest)
        = (.ret (.ok (res, m, ftag, ttag)), true) := by
  refine ⟨fun p tail hlt hne => invite_stream_skip p tail hlt hne, ?_⟩
  induction provs with
  | nil =>
    simp only [List.map_nil, List.nil_append]
    rw [invite_stream.eq_def]
    dsimp only
    rw [if_neg (by omega : ¬ 300 ≤ res.statusCode.code), if_pos h200, hbody]
    dsimp only
    rw [hm]
    dsimp only
    rw [get_tag_by_header_from.eq_def, hft]
    dsimp only
    rw [get_tag_by_header_to.eq_def, htt]
  | cons p ps ih =>
    have hp := hprov p (List.mem_cons_self p ps)
    rw [List.map_cons, List.cons_append, invite_stream_skip p _ hp.1 hp.2]
    exact ih (fun q hq => hprov q (List.mem_cons_of_mem p hq))

/-- C1 witness. -/
theorem invite_stream_provisional_then_ok_witness :
    invite_stream [some resp183, some resp200]
      = (.ret (.ok (resp200, [(96, "PS"), (97, "H264")], "fromtag1", "totag1")), true) :=
  (invite_stream_provisional_then_ok [resp183] resp200 [] (by decide) (by decide)
      goodSession (by decide) [(96, "PS"), (97, "H264")] (by decide)
      "fromtag1" (by decide) "totag1" (by decide)).2

/-- C2: session-description parsing in `invite_stream` is deterministic
and normalizing: an rtpmap attribute value is trimmed, whitespace runs
are collapsed, it is split into payload type and codec descriptor, and
the codec name is taken up to any slash and upper-cased; the attributes
96 PS/90000 and 97 H264/90000 yield the mapping 96 ↦ PS, 97 ↦ H264, and
the irregular-whitespace value yields payload type 96 with codec PS. -/
theorem rtpmap_parsing_deterministic_examples :
    buildMediaMap goodSession = .ok [(96, "PS"), (97, "H264")]
    ∧ rtpmapParse " 96   PS/90000 " = .ok (some (96, "PS"))
    ∧ rtpmapParse "96 PS/90000" = .ok (some (96, "PS"))
    ∧ rtpmapParse "97 H264/90000" = .ok (some (97, "H264")) := by
  decide

/-- C9: a 200 response whose body the sdp parser cannot parse makes
`invite_stream` panic (the `.unwrap()` on `Session::parse`) instead of
deregistering the identifier and returning a classified failure. -/
theorem invite_stream_unparseable_body_panics
    (res : Response) (rest : List (Option Response))
    (h200 : res.statusCode.code = 200) (hbody : res.body = none) :
    invite_stream (some res :: rest) = (.panicked, false) := by
  unfold invite_stream
  rw [if_neg (by omega : ¬ 300 ≤ res.statusCode.code), if_pos h200, hbody]

/-- C9 witness. -/
theorem invite_stream_unparseable_body_panics_witness :
    invite_stream [some respNoBody] = (.panicked, false) :=
  invite_stream_unparseable_body_panics respNoBody [] (by decide) (by decide)

/-- C10: each bounded-wait command examines only the first delivered
message: a first response with any status code other than 200 —
including a provisional one — deregisters the identifier and returns the
unresponsive/timeout-classified failure regardless of what follows,
whereas `invite_stream` keeps consuming past a provisional response. -/
theorem bounded_wait_first_message_only
    (res : Response) (rest : List (Option Response))
    (h : res.statusCode.code ≠ 200) :
    play_speed (some res :: rest) = (.error (.biz 1000 "speed倍速未响应或超时"), true)
    ∧ play_seek (some res :: rest) = (.error (.biz 1000 "seek拖动未响应或超时"), true)
    ∧ play_bye (some res :: rest) = (.error (.biz 1000 "关闭摄像机直播未响应或超时"), true)
    ∧ (res.statusCode.code < 300 →
        invite_stream (some res :: rest) = invite_stream rest) := by
  refine ⟨?_, ?_, ?_, fun hlt => invite_stream_skip res rest hlt h⟩
  · rw [play_speed.eq_def]
    dsimp only
    rw [if_neg h]
  · rw [play_seek.eq_def]
    dsimp only
    rw [if_neg h]
  · rw [play_bye.eq_def]
    dsimp only
    rw [if_neg h]

/-- C10 witness. -/
theorem bounded_wait_first_message_only_witness :
    play_speed [some resp183, some resp200] = (.error (.biz 1000 "speed倍速未响应或超时"), true)
    ∧ invite_stream [some resp183, some resp200] = invite_stream [some resp200] :=
  ⟨(bounded_wait_first_message_only resp183 [some resp200] (by decide)).1,
   (bounded_wait_first_message_only resp183 [some resp200] (by decide)).2.2.2 (by decide)⟩

/-- C3: a bounded-wait command succeeds exactly when the first delivered
message is a response with status code exactly 200; any other first
delivery, an absence signal, or closure with no message yields the
classified business failure, and the Dialog Identifier is deregistered
before returning on every one of these paths. -/
theorem bounded_wait_success_iff_ok200 (stream : List (Option Response)) :
    ((play_speed stream).2 = true ∧ (play_seek stream).2 = true ∧ (play_bye stream).2 = true)
    ∧ ((play_speed stream).1 = .ok () ↔
        ∃ res rest, stream = some res :: rest ∧ res.statusCode.code = 200)
    ∧ ((play_seek stream).1 = .ok () ↔
        ∃ res rest, stream = some res :: rest ∧ res.statusCode.code = 200)
    ∧ ((play_bye stream).1 = .ok () ↔
        ∃ res rest, stream = some res :: rest ∧ res.statusCode.code = 200)
    ∧ ((play_speed stream).1 ≠ .ok () →
        (play_speed stream).1 = .error (.biz 1000 "speed倍速未响应或超时"))
    ∧ ((play_seek stream).1 ≠ .ok () →
        (play_seek stream).1 = .error (.biz 1000 "seek拖动未响应或超时"))
    ∧ ((play_bye stream).1 ≠ .ok () →
        (play_bye stream).1 = .error (.biz 1000 "关闭摄像机直播未响应或超时")) := by
  rcases stream with _ | ⟨ores, rest⟩
  · simp [play_speed, play_seek, play_bye]
  · rcases ores with _ | res
    · simp [play_speed, play_seek, play_bye]
    · by_cases h : res.statusCode.code = 200
      · simp [play_speed, play_seek, play_bye, h]
      · simp [play_speed, play_seek, play_bye, h]

/-- C3 witness. -/
theorem bounded_wait_success_iff_ok200_witness :
    (play_speed [some resp200]).1 = .ok () :=
  (bounded_wait_success_iff_ok200 [some resp200]).2.1.mpr ⟨resp200, [], rfl, by decide⟩

/-- C5: the first delivered response with status code at least 300
terminates the INVITE exchange: after any run of non-terminal responses,
`invite_stream` deregisters the identifier and returns the classified
protocol-rejection failure (business code 3000) whose message is the
response's status text, which begins with the numeric status code. -/
theorem invite_stream_rejects_ge300
    (provs : List Response) (res : Response) (rest : List (Option Response))
    (hprov : ∀ p ∈ provs, p.statusCode.code < 300 ∧ p.statusCode.code ≠ 200)
    (h : 300 ≤ res.statusCode.code) :
    invite_stream (provs.map some ++ some res :: rest)
      = (.ret (.error (.biz 3000 res.statusCode.render)), true)
    ∧ ∃ s, res.statusCode.render = toString res.statusCode.code ++ s := by
  constructor
  · induction provs with
    | nil =>
      simp only [List.map_nil, List.nil_append]
      rw [invite_stream.eq_def]
      dsimp only
      rw [if_pos h]
    | cons p ps ih =>
      have hp := hprov p (List.mem_cons_self p ps)
      rw [List.map_cons, List.cons_append, invite_stream_skip p _ hp.1 hp.2]
      exact ih (fun q hq => hprov q (List.mem_cons_of_mem p hq))
  · exact ⟨" " ++ res.statusCode.reason, by simp [StatusCode.render, String.append_assoc]⟩

/-- C5 witness. -/
theorem invite_stream_rejects_ge300_witness :
    invite_stream [some resp183, some resp486]
      = (.ret (.error (.biz 3000 "486 Busy Here")), true) :=
  ((invite_stream_rejects_ge300 [resp183] resp486 [] (by decide) (by decide)).1).trans
    (by decide)

/-- C6: inside the 200 branch of `invite_stream`, an unparsable
payload-type field or a missing From or To dialog tag makes the exchange
fail with the propagated validation error — returned to the caller, not
skipped — even though the wire response carried the success status. -/
theorem invite_stream_validation_failures
    (res : Response) (rest : List (Option Response))
    (h200 : res.statusCode.code = 200)
    (session : Session) (hbody : res.body = some session) :
    (∀ e, buildMediaMap session = .error e →
        invite_stream (some res :: rest) = (.ret (.error e), false))
    ∧ (∀ m, buildMediaMap session = .ok m → res.fromTag = none →
        invite_stream (some res :: rest) = (.ret (.error (.sys "missing from tag")), false))
    ∧ (∀ m ftag, buildMediaMap session = .ok m → res.fromTag = some ftag → res.toTag = none →
        invite_stream (some res :: rest) = (.ret (.error (.sys "missing to tag")), false)) := by
  refine ⟨?_, ?_, ?_⟩
  · intro e he
    rw [invite_stream.eq_def]
    dsimp only
    rw [if_neg (by omega : ¬ 300 ≤ res.statusCode.code), if_pos h200, hbody]
    dsimp only
    rw [he]
  · intro m hm hft
    rw [invite_stream.eq_def]
    dsimp only
    rw [if_neg (by omega : ¬ 300 ≤ res.statusCode.code), if_pos h200, hbody]
    dsimp only
    rw [hm]
    dsimp only
    rw [get_tag_by_header_from.eq_def, hft]
  · intro m ftag hm hft htt
    rw [invite_stream.eq_def]
    dsimp only
    rw [if_neg (by omega : ¬ 300 ≤ res.statusCode.code), if_pos h200, hbody]
    dsimp only
    rw [hm]
    dsimp only
    rw [get_tag_by_header_from.eq_def, hft]
    dsimp only
    rw [get_tag_by_header_to.eq_def, htt]

/-- C6 witness. -/
theorem invite_stream_validation_failures_witness :
    invite_stream [some respBadPayload]
      = (.ret (.error (.sys "invalid digit found in string")), false)
    ∧ invite_stream [some respNoFrom]
      = (.ret (.error (.sys "missing from tag")), false) :=
  ⟨(invite_stream_validation_failures respBadPayload [] (by decide)
      badPayloadSession (by decide)).1 (.sys "invalid digit found in string") (by decide),
   (invite_stream_validation_failures respNoFrom [] (by decide)
      goodSession (by decide)).2.1 [(96, "PS"), (97, "H264")] (by decide) (by decide)⟩

/-- C7: each lazy-scheduled query sets the deferred action's fire time to
exactly the registration time plus 2 seconds, so the request is not
dispatched to the transport at any time before T+2. -/
theorem lazy_query_fire_time (now t : Nat) :
    (lazy_query_device_info now).fireAt = now + 2
    ∧ (lazy_query_device_catalog now).fireAt = now + 2
    ∧ (lazy_subscribe_device_catalog now).fireAt = now + 2
    ∧ (t < now + 2 → (lazy_query_device_info now).mayFireAt t = false)
    ∧ (t < now + 2 → (lazy_query_device_catalog now).mayFireAt t = false)
    ∧ (t < now + 2 → (lazy_subscribe_device_catalog now).mayFireAt t = false) := by
  refine ⟨rfl, rfl, rfl, ?_, ?_, ?_⟩ <;>
    · intro ht
      simp only [DeferredTask.mayFireAt, lazy_query_device_info, lazy_query_device_catalog,
        lazy_subscribe_device_catalog, decide_eq_false_iff_not]
      omega

/-- C7 witness. -/
theorem lazy_query_fire_time_witness :
    (lazy_query_device_info 5).fireAt = 7
    ∧ (lazy_query_device_info 5).mayFireAt 6 = false :=
  ⟨(lazy_query_fire_time 5 6).1, (lazy_query_fire_time 5 6).2.2.2.1 (by decide)⟩

/-- C8: the payload-type map built by `invite_stream` has unique keys:
`HashMap::insert` overwrites on a duplicate numeric key, so the stored
codec name for a key is the last inserted one, and two rtpmap attributes
with the same payload type leave exactly one entry, from the last
occurrence in iteration order. -/
theorem media_map_unique_keys_last_wins
    (s : Session) (m : List (Nat × String)) (hm : buildMediaMap s = .ok m) :
    (m.map Prod.fst).Nodup
    ∧ (∀ l k v, mapLookup (mapInsert l k v) k = some v)
    ∧ buildMediaMap { medias := [{ attributes :=
          [{ attrName := "rtpmap", value := some "96 PS/90000" },
           { attrName := "rtpmap", value := some "96 H264/90000" }] }] }
        = .ok [(96, "H264")] :=
  ⟨processMedias_keys_nodup s.medias [] m hm (by simp), mapLookup_mapInsert, by decide⟩

/-- C8 witness. -/
theorem media_map_unique_keys_last_wins_witness :
    (([(96, "PS"), (97, "H264")] : List (Nat × String)).map Prod.fst).Nodup :=
  (media_map_unique_keys_last_wins goodSession [(96, "PS"), (97, "H264")] (by decide)).1

theorem play_removed (stream : List (Option Response)) :
    (play_speed stream).2 = true ∧ (play_seek stream).2 = true ∧ (play_bye stream).2 = true := by
  rcases stream with _ | ⟨ores, rest⟩
  · exact ⟨rfl, rfl, rfl⟩
  · rcases ores with _ | res
    · exact ⟨rfl, rfl, rfl⟩
    · by_cases h : res.statusCode.code = 200
      · simp [play_speed, play_seek, play_bye, h]
      · simp [play_speed, play_seek, play_bye, h]

theorem invite_stream_not_removed_sys : ∀ (stream : List (Option Response)),
    (invite_stream stream).2 = false →
      (invite_stream stream).1 = .panicked
      ∨ ∃ msg, (invite_stream stream).1 = .ret (.error (.sys msg)) := by
  intro stream
  induction stream with
  | nil => intro h; cases h
  | cons o rest ih =>
    cases o with
    | none => intro h; cases h
    | some res =>
      by_cases h3 : 300 ≤ res.statusCode.code
      · rw [invite_stream.eq_def]
        dsimp only
        rw [if_pos h3]
        intro h
        cases h
      · by_cases h2 : res.statusCode.code = 200
        · rw [invite_stream.eq_def]
          dsimp only
          rw [if_neg h3, if_pos h2]
          cases hbody : res.body with
          | none => intro _; exact Or.inl rfl
          | some session =>
            dsimp only
            cases hbm : buildMediaMap session with
            | error e =>
              dsimp only
              intro _
              exact Or.inr ⟨_, by rw [buildMediaMap_error_sys session e hbm]⟩
            | ok mm =>
              dsimp only
              cases hft : res.fromTag with
              | none =>
                rw [get_tag_by_header_from.eq_def, hft]
                intro _
                exact Or.inr ⟨"missing from tag", rfl⟩
              | some ftag =>
                rw [get_tag_by_header_from.eq_def, hft]
                dsimp only
                cases htt : res.toTag with
                | none =>
                  rw [get_tag_by_header_to.eq_def, htt]
                  intro _
                  exact Or.inr ⟨"missing to tag", rfl⟩
                | some ttag =>
                  rw [get_tag_by_header_to.eq_def, htt]
                  intro h
                  cases h
        · rw [invite_stream_skip res rest (by omega) h2]
          exact ih

/-- C4 (amended): `EventSession::remove_event` is invoked before return
on the success, protocol-rejection and silence/closure completion paths
of `invite_stream` (every path returning a business-classified result)
and on every completion path of `play_speed`, `play_seek` and
`play_bye`; the validation-error paths inside the 200 branch of
`invite_stream` (unparsable payload type, missing dialog tag) return
without deregistering. -/
theorem cleanup_on_success_reject_timeout (stream : List (Option Response)) :
    ((play_speed stream).2 = true ∧ (play_seek stream).2 = true ∧ (play_bye stream).2 = true)
    ∧ (∀ r, (invite_stream stream).1 = .ret (.ok r) → (invite_stream stream).2 = true)
    ∧ (∀ c msg, (invite_stream stream).1 = .ret (.error (.biz c msg)) →
        (invite_stream stream).2 = true) := by
  refine ⟨play_removed stream, ?_, ?_⟩
  · intro r hr
    cases hrem : (invite_stream stream).2 with
    | true => rfl
    | false =>
      rcases invite_stream_not_removed_sys stream hrem with hp | ⟨msg, hs⟩
      · rw [hr] at hp
        cases hp
      · rw [hr] at hs
        cases hs
  · intro c msg hc
    cases hrem : (invite_stream stream).2 with
    | true => rfl
    | false =>
      rcases invite_stream_not_removed_sys stream hrem with hp | ⟨msg2, hs⟩
      · rw [hc] at hp
        cases hp
      · rw [hc] at hs
        simp at hs

/-- C4 witness. -/
theorem cleanup_on_success_reject_timeout_witness :
    (invite_stream [some resp183, some resp200]).2 = true ∧ (play_speed []).2 = true :=
  ⟨(cleanup_on_success_reject_timeout [some resp183, some resp200]).2.1
      (resp200, [(96, "PS"), (97, "H264")], "fromtag1", "totag1") (by decide),
   (cleanup_on_success_reject_timeout ([] : List (Option Response))).1.1⟩

/-- C4 counterexample: `invite_stream` completes (returns normally, does
not panic) on the validation-error path of a 200 response whose rtpmap
payload type is not numeric, yet `EventSession::remove_event` is not
invoked before the return, so a waiter for the identifier remains. -/
theorem cleanup_counterexample :
    (invite_stream [some respBadPayload]).2 = false
    ∧ (invite_stream [some respBadPayload]).1
        = .ret (.error (.sys "invalid digit found in string")) := by
  decide

end Gb
